import Mathlib

/-!
Verification of the bulk game-metadata ingestion pipeline of the games_webapp
repository (Go). The definitions below are a shallow embedding of the relevant
source functions:

* `GetGameByURL` — services/games.go, `GameService.GetGameByURL`: the dedup
  pre-check over the catalog store, with the store query outcome passed in
  explicitly (`none` models a nil gorm error, i.e. a record was found).
* `createPriorityCheck` / `updatePriorityCheck` — the priority handling slice of
  `GameController.Create` and `GameController.Update` in controllers/games.go:
  `strconv.Atoi` failure is modelled by `none` (normalized to 0), then the
  handlers reject with HTTP 400 when the parsed value exceeds 10.
* `extractDeveloper` / `extractPublisher` — the infobox label extraction of
  `parseGameWiki` in utils: goquery's `th:contains(..)` selector matches by
  substring, modelled by `strContainsSub`; `.Next().Text()` is the concatenated
  adjacent-cell text; the plural developer branch splits on a single space and
  keeps the first token.
* `findGameSteam`, `ProcessWiki`, `ProcessSteam`, `downloadAndSaveImage`,
  `serviceCreate`, `serviceCreateUserGame`, `createSingleGame` — the per-item
  pipeline of controllers/games.go and utils, with all external I/O outcomes
  supplied by an `ItemEnv` oracle and the externally visible effects recorded
  in an event trace.
* `CreateMultiGamesDB` — the batch orchestrator: up-front size checks, one
  pipeline run per item, aggregation into success/error lists, and the HTTP
  status classification.
* `SemStep` / `SemReach` — the `sem = make(chan struct{}, maxWorkers)` counting
  semaphore protocol of the orchestrator as a transition system.
-/

instance {ε α : Type} [DecidableEq ε] [DecidableEq α] : DecidableEq (Except ε α) := fun x y =>
  match x, y with
  | Except.ok a, Except.ok b =>
      if h : a = b then isTrue (by rw [h])
      else isFalse (by intro he; cases he; exact h rfl)
  | Except.error a, Except.error b =>
      if h : a = b then isTrue (by rw [h])
      else isFalse (by intro he; cases he; exact h rfl)
  | Except.ok _, Except.error _ => isFalse (by intro h; cases h)
  | Except.error _, Except.ok _ => isFalse (by intro h; cases h)

/-- Outcome of the gorm `First` query in `GetGameByURL`, when it returns a
non-nil error: either `gorm.ErrRecordNotFound` or any other storage failure. -/
inductive DBErr where
  | recordNotFound
  | otherFailure
deriving DecidableEq, Repr

/-- services/games.go `GameService.GetGameByURL`: returns an error message when
the url is empty or when the query found a record (`queryErr = none` models a
nil gorm error); a storage failure other than record-not-found falls into the
first branch and returns success (`none`). -/
def GetGameByURL (url : String) (queryErr : Option DBErr) : Option String :=
  if url = "" then some "games.GetGameByURL: url is empty"
  else if queryErr ≠ none ∧ queryErr ≠ some DBErr.recordNotFound then none
  else if queryErr = none then some "game already exists"
  else none

/-- `strconv.Atoi` result for the submitted priority form value: `none` models
a parse error, which both handlers replace by 0. -/
def atoiResult (raw : Option Int) : Int :=
  match raw with
  | none => 0
  | some v => v

/-- Priority handling of `GameController.Create` (controllers/games.go): parse
failure is replaced by 0, then a value greater than 10 is rejected with
HTTP 400; otherwise the parsed value is kept as submitted. -/
def createPriorityCheck (raw : Option Int) : Except Nat Int :=
  let p := atoiResult raw
  if p > 10 then Except.error 400 else Except.ok p

/-- Priority handling of `GameController.Update` (controllers/games.go), same
shape as in `Create`. -/
def updatePriorityCheck (raw : Option Int) : Except Nat Int :=
  let p := atoiResult raw
  if p > 10 then Except.error 400 else Except.ok p

/-- `sub` occurs as a contiguous sublist of `s`. -/
def listContainsSub (s sub : List Char) : Bool :=
  (List.range (s.length + 1)).any (fun i => sub.isPrefixOf (s.drop i))

/-- Substring containment on strings, the matching rule of goquery's
`:contains(..)` selector. -/
def strContainsSub (s sub : String) : Bool :=
  listContainsSub s.toList sub.toList

/-- Go `strings.TrimSpace`: drop whitespace from both ends. -/
def goTrimSpace (s : String) : String :=
  String.mk (((s.toList.dropWhile Char.isWhitespace).reverse.dropWhile
    Char.isWhitespace).reverse)

/-- Go `strings.Split(s, " ")[0]`: the text before the first space. -/
def firstSpaceToken (s : String) : String :=
  String.mk (s.toList.takeWhile (fun c => c ≠ ' '))

/-- One label row of the wiki infobox: the `th` text and the text of the
adjacent (next-sibling) cell. -/
structure InfoRow where
  header : String
  adjacent : String
deriving DecidableEq, Repr

/-- `infobox.Find("th:contains(lbl)")`: the label cells whose text contains
`lbl` as a substring. -/
def findHeaderCells (rows : List InfoRow) (lbl : String) : List InfoRow :=
  rows.filter (fun r => strContainsSub r.header lbl)

/-- `selection.Next().Text()`: concatenated adjacent-cell text of all
selected label cells. -/
def nextText (cells : List InfoRow) : String :=
  String.mk (cells.foldr (fun r acc => r.adjacent.toList ++ acc) [])

/-- Developer extraction of `parseGameWiki`: first the label containing the
singular text, whole trimmed adjacent text; otherwise the label containing the
plural text, first space-delimited token of the adjacent text, trimmed. -/
def extractDeveloper (rows : List InfoRow) : String :=
  let sel1 := findHeaderCells rows "Разработчик"
  if sel1.length > 0 then goTrimSpace (nextText sel1)
  else
    let sel2 := findHeaderCells rows "Разработчики"
    if sel2.length > 0 then goTrimSpace (firstSpaceToken (nextText sel2))
    else ""

/-- Publisher extraction of `parseGameWiki`: both the singular and the plural
branch take the whole trimmed adjacent text. -/
def extractPublisher (rows : List InfoRow) : String :=
  let sel1 := findHeaderCells rows "Издатель"
  if sel1.length > 0 then goTrimSpace (nextText sel1)
  else
    let sel2 := findHeaderCells rows "Издатели"
    if sel2.length > 0 then goTrimSpace (nextText sel2)
    else ""

/-- The parsed-field map produced by `parseGameWiki` / `parseGameSteam`
(`resultMap` keys title, description, image, developer, publisher, year,
genre, url), as a strongly-typed record. -/
structure ParsedGame where
  title : String
  description : String
  image : String
  developer : String
  publisher : String
  year : String
  genre : String
  url : String
deriving DecidableEq, Repr

/-- models.Game, restricted to the fields the ingestion pipeline writes. -/
structure Game where
  id : Int
  title : String
  preambula : String
  image : String
  developer : String
  publisher : String
  year : String
  genre : String
  url : String
  creator : Int
deriving DecidableEq, Repr

/-- Externally visible effects of one item pipeline run, in invocation order. -/
inductive Ev where
  | resolveWiki (name : String)
  | resolveSteam (name : String)
  | dedupCheck (url : String)
  | parseWiki (url : String)
  | parseSteam (url : String)
  | fetchImage (url : String)
  | insertGame (url : String)
  | insertUserGame (gameId : Int)
  | deleteImage (filename : String)
deriving DecidableEq, Repr

/-- The HTTP response of the Steam suggest endpoint in `findGameSteam`:
a transport error, or a status code together with the `href` attribute of each
`a.match` anchor in document order (`none` = anchor without `href`). -/
inductive SteamResp where
  | netError
  | resp (status : Nat) (hrefs : List (Option String))

/-- The `EachWithBreak` loop of `findGameSteam`: the first anchor that carries
an `href`, or the empty string when none does. -/
def firstMatchHref (hrefs : List (Option String)) : String :=
  match hrefs with
  | [] => ""
  | some h :: _ => h
  | none :: rest => firstMatchHref rest

/-- utils `findGameSteam`: transport error fails; a non-200 status fails with
an unexpected-status message; an empty first link fails with a not-found
message; otherwise the first suggested link is returned. -/
def findGameSteam (name : String) (r : SteamResp) : Except String String :=
  match r with
  | SteamResp.netError => Except.error "network error"
  | SteamResp.resp status hrefs =>
    if status ≠ 200 then Except.error ("unexpected status code: " ++ toString status)
    else
      let firstLink := firstMatchHref hrefs
      if firstLink = "" then Except.error ("игры не найдены " ++ name)
      else Except.ok firstLink

/-- All external-I/O outcomes one item pipeline run can observe, supplied as
an oracle: the shared context state at entry, the authenticated user id in the
request context, the resolver and parser outcomes per url, the dedup query
outcome per url, the image download outcome, and the two store writes. -/
structure ItemEnv where
  ctxDone : Bool
  userID : Option Int
  wikiResolve : String → Except String String
  steamHttp : String → SteamResp
  dbQuery : String → Option DBErr
  wikiParse : String → Except String ParsedGame
  steamParse : String → Except String ParsedGame
  imageFetch : String → Except String String
  insertGameOk : Bool
  insertUserGameOk : Bool
  newGameID : Int

/-- utils `ProcessWiki`: resolve the name on the wiki, run the url pre-check
(`checkURLInDB`, i.e. `GetGameByURL`), then parse the page; a pre-check error
is reported as "game already exists". -/
def ProcessWiki (env : ItemEnv) (name : String) : Except String ParsedGame × List Ev :=
  match env.wikiResolve name with
  | Except.error e =>
      (Except.error ("ошибка поиска страницы " ++ name ++ " на Wiki: " ++ e),
       [Ev.resolveWiki name])
  | Except.ok url =>
      match GetGameByURL url (env.dbQuery url) with
      | some _ =>
          (Except.error ("game already exists: " ++ url),
           [Ev.resolveWiki name, Ev.dedupCheck url])
      | none =>
          match env.wikiParse url with
          | Except.error e =>
              (Except.error ("ошибка парсинга " ++ name ++ " по url " ++ url ++ ": " ++ e),
               [Ev.resolveWiki name, Ev.dedupCheck url, Ev.parseWiki url])
          | Except.ok pg =>
              (Except.ok pg, [Ev.resolveWiki name, Ev.dedupCheck url, Ev.parseWiki url])

/-- utils `ProcessSteam`: resolve on Steam; on any resolution failure fall back
to the whole `ProcessWiki` run for the same name; otherwise pre-check the url
and parse the Steam store page. -/
def ProcessSteam (env : ItemEnv) (name : String) : Except String ParsedGame × List Ev :=
  match findGameSteam name (env.steamHttp name) with
  | Except.error _ =>
      let wiki := ProcessWiki env name
      (wiki.1, Ev.resolveSteam name :: wiki.2)
  | Except.ok url =>
      match GetGameByURL url (env.dbQuery url) with
      | some _ =>
          (Except.error ("игра уже существует: " ++ url),
           [Ev.resolveSteam name, Ev.dedupCheck url])
      | none =>
          match env.steamParse url with
          | Except.error e =>
              (Except.error ("ошибка парсинга " ++ name ++ " по url " ++ url ++ ": " ++ e),
               [Ev.resolveSteam name, Ev.dedupCheck url, Ev.parseSteam url])
          | Except.ok pg =>
              (Except.ok pg, [Ev.resolveSteam name, Ev.dedupCheck url, Ev.parseSteam url])

/-- controllers `downloadAndSaveImage`: an empty url fails without any network
call; otherwise the download/validate/save sequence is one oracle outcome. -/
def downloadAndSaveImage (env : ItemEnv) (url : String) : Except String String × List Ev :=
  if url = "" then (Except.error "не валидный url", [])
  else (env.imageFetch url, [Ev.fetchImage url])

/-- services/games.go `GameService.Create`: re-run `GetGameByURL` as the
service-level dedup check, then insert the record inside a transaction; on
success the stored record carries the store-assigned id. -/
def serviceCreate (env : ItemEnv) (g : Game) : Except String Game × List Ev :=
  match GetGameByURL g.url (env.dbQuery g.url) with
  | some e => (Except.error ("services.games.Create: " ++ e), [Ev.dedupCheck g.url])
  | none =>
      if env.insertGameOk then
        (Except.ok { g with id := env.newGameID },
         [Ev.dedupCheck g.url, Ev.insertGame g.url])
      else
        (Except.error "services.games.Create: ошибка вставки",
         [Ev.dedupCheck g.url, Ev.insertGame g.url])

/-- services/games.go `GameService.CreateUserGame`, abstracted to its outcome:
`none` means the user-game link now exists. -/
def serviceCreateUserGame (env : ItemEnv) (gameId : Int) : Option String × List Ev :=
  if env.insertUserGameOk then (none, [Ev.insertUserGame gameId])
  else (some "services.games.CreateUserGame: ошибка вставки",
        [Ev.insertUserGame gameId])

/-- controllers/games.go error values used by the bulk ingestion path. -/
def ErrUnauthorized : String := "пользователь не авторизован"

/-- controllers/games.go `ErrInvalidSource`. -/
def ErrInvalidSource : String := "неверный источник"

/-- controllers/games.go `ErrCreateGame`. -/
def ErrCreateGame : String := "ошибка при создании игры"

/-- `ctx.Err()` once the shared 10-second deadline has fired. -/
def ErrCtxDone : String := "context deadline exceeded"

/-- controllers/games.go `GameController.createSingleGame`: the per-item
pipeline. Checks the context deadline, then the authenticated user, then the
source tag; runs `ProcessWiki` or `ProcessSteam`; downloads the cover image
best-effort (failure leaves an empty filename); inserts the game record; if
that insert fails and an image was saved, deletes the image as compensation;
finally inserts the user-game link. Returns the outcome with the trace of
external effects. -/
def createSingleGame (env : ItemEnv) (name source : String) :
    Except String Game × List Ev :=
  if env.ctxDone then (Except.error ErrCtxDone, [])
  else
    match env.userID with
    | none => (Except.error ErrUnauthorized, [])
    | some uid =>
      if uid ≤ 0 then (Except.error ErrUnauthorized, [])
      else if source ≠ "Wiki" ∧ source ≠ "Steam" then
        (Except.error ErrInvalidSource, [])
      else
        let proc := if source = "Wiki" then ProcessWiki env name
                    else ProcessSteam env name
        match proc.1 with
        | Except.error e => (Except.error e, proc.2)
        | Except.ok pg =>
          let fetched := downloadAndSaveImage env pg.image
          let imageFilename := match fetched.1 with
            | Except.error _ => ""
            | Except.ok fn => fn
          let tr := proc.2 ++ fetched.2
          let game : Game :=
            { id := 0, title := pg.title, preambula := pg.description,
              image := imageFilename, developer := pg.developer,
              publisher := pg.publisher, year := pg.year, genre := pg.genre,
              url := pg.url, creator := 0 }
          let created := serviceCreate env game
          match created.1 with
          | Except.error e =>
              if imageFilename ≠ "" then
                (Except.error (ErrCreateGame ++ " " ++ name ++ " : " ++ e),
                 tr ++ created.2 ++ [Ev.deleteImage imageFilename])
              else
                (Except.error (ErrCreateGame ++ " " ++ name ++ " : " ++ e),
                 tr ++ created.2)
          | Except.ok createdGame =>
              let ug := serviceCreateUserGame env createdGame.id
              match ug.1 with
              | some e =>
                  (Except.error (ErrCreateGame ++ " " ++ name ++ " : " ++ e),
                   tr ++ created.2 ++ ug.2)
              | none => (Except.ok game, tr ++ created.2 ++ ug.2)

/-- One entry of the decoded `RequestData.Games` list. -/
structure RequestGame where
  name : String
  source : String
deriving DecidableEq, Repr

/-- The up-front batch checks of `CreateMultiGamesDB` (after JSON decoding):
an empty list or more than 100 items is rejected with HTTP 400 before any
item work starts; `none` means the batch proceeds. -/
def precheckBatch (games : List RequestGame) : Option Nat :=
  if games.length = 0 then some 400
  else if games.length > 100 then some 400
  else none

/-- One pipeline outcome per request item; the i-th item observes the i-th
oracle environment. -/
def runItems (games : List RequestGame) (envs : List ItemEnv) :
    List (Except String Game) :=
  (games.zip envs).map (fun p => (createSingleGame p.2 p.1.name p.1.source).1)

/-- The `resultsChan` drain: every successful outcome, as a game record. -/
def collectSuccesses (rs : List (Except String Game)) : List Game :=
  rs.filterMap (fun r => match r with
    | Except.ok g => some g
    | Except.error _ => none)

/-- The `errChan` drain: every failed outcome, as an error string. -/
def collectErrors (rs : List (Except String Game)) : List String :=
  rs.filterMap (fun r => match r with
    | Except.ok _ => none
    | Except.error e => some e)

/-- The status derivation of `CreateMultiGamesDB`: 201 when no errors, 500
when there are errors and no successes, 207 otherwise. -/
def classifyStatus (succ : List Game) (errs : List String) : Nat :=
  if errs.length > 0 then (if succ.length = 0 then 500 else 207) else 201

/-- controllers/games.go `GameController.CreateMultiGamesDB`: reject the batch
up front on a bad size, otherwise run every item, aggregate, and classify.
Returns (http status, success list, error list). -/
def CreateMultiGamesDB (games : List RequestGame) (envs : List ItemEnv) :
    Nat × List Game × List String :=
  match precheckBatch games with
  | some st => (st, [], [])
  | none =>
    let rs := runItems games envs
    let succ := collectSuccesses rs
    let errs := collectErrors rs
    (classifyStatus succ errs, succ, errs)

/-- `maxWorkers` of `CreateMultiGamesDB`. -/
def maxWorkers : Nat := 10

/-- State of the submission loop of `CreateMultiGamesDB`: items not yet
submitted, goroutines currently holding a semaphore permit (each item's whole
pipeline runs between its acquire and its deferred release), and finished
items. -/
structure SemState where
  waitingItems : Nat
  inFlight : Nat
  completed : Nat
deriving DecidableEq, Repr

/-- The two transitions of the semaphore protocol: the main loop sends on
`sem` (blocking while `maxWorkers` permits are held) and spawns the item
goroutine; a goroutine finishes and releases its permit. -/
inductive SemStep : SemState → SemState → Prop where
  | acquire (s : SemState) : 0 < s.waitingItems → s.inFlight < maxWorkers →
      SemStep s ⟨s.waitingItems - 1, s.inFlight + 1, s.completed⟩
  | release (s : SemState) : 0 < s.inFlight →
      SemStep s ⟨s.waitingItems, s.inFlight - 1, s.completed + 1⟩

/-- States reachable from a fresh batch of `n` items. -/
inductive SemReach (n : Nat) : SemState → Prop where
  | init : SemReach n ⟨n, 0, 0⟩
  | step (s s' : SemState) : SemReach n s → SemStep s s' → SemReach n s'

/-- A concrete parsed record, for witnesses and counterexamples. -/
def pgHL2 : ParsedGame :=
  { title := "Half-Life 2", description := "шутер от первого лица",
    image := "https://img.example/hl2.jpg", developer := "Valve",
    publisher := "Valve", year := "2004", genre := "шутер",
    url := "https://w.example/hl2" }

/-- A concrete oracle under which one Wiki item succeeds end to end. -/
def envBase : ItemEnv :=
  { ctxDone := false, userID := some 1,
    wikiResolve := fun _ => Except.ok "https://w.example/hl2",
    steamHttp := fun _ => SteamResp.netError,
    dbQuery := fun _ => some DBErr.recordNotFound,
    wikiParse := fun _ => Except.ok pgHL2,
    steamParse := fun _ => Except.ok pgHL2,
    imageFetch := fun _ => Except.ok "abc.jpg",
    insertGameOk := true, insertUserGameOk := true, newGameID := 7 }

/-- `envBase` with no authenticated user in the request context. -/
def envUnauth : ItemEnv := { envBase with userID := none }

/-- `envBase` whose user-game link insertion fails. -/
def envLinkFail : ItemEnv := { envBase with insertUserGameOk := false }

/-- `envBase` whose game-record insertion fails. -/
def envInsertFail : ItemEnv := { envBase with insertGameOk := false }

/-- `envBase` whose dedup query finds an existing record for every url. -/
def envDup : ItemEnv := { envBase with dbQuery := fun _ => none }

/-- C10: `GetGameByURL` swallows storage errors: for a non-empty url it
reports an error exactly when the query found a record with that url
("game already exists"); a storage failure other than record-not-found is
returned as success, so ingestion proceeds as if the url were absent. -/
theorem c10_getGameByURL_swallows_storage_errors (url : String) (q : Option DBErr) :
    ((GetGameByURL url q).isSome ↔ (url = "" ∨ q = none)) ∧
    (url ≠ "" → q = some DBErr.otherFailure → GetGameByURL url q = none) ∧
    (url ≠ "" → q = none → GetGameByURL url q = some "game already exists") := by
  unfold GetGameByURL
  rcases q with _ | e
  · by_cases h : url = "" <;> simp [h]
  · cases e <;> by_cases h : url = "" <;> simp [h]

/-- C10 witness: a failing store query on a non-empty url is swallowed. -/
theorem c10_witness : GetGameByURL "https://w.example/hl2" (some DBErr.otherFailure) = none :=
  (c10_getGameByURL_swallows_storage_errors "https://w.example/hl2"
    (some DBErr.otherFailure)).2.1 (by decide) rfl

/-- C5 counterexample: a submitted priority of 11 makes both the create and
the update handler fail with HTTP 400 instead of normalizing it to 0, and a
submitted priority of -3 is accepted and stored as -3, outside [0,10]. -/
theorem c5_counterexample :
    createPriorityCheck (some 11) = Except.error 400 ∧
    updatePriorityCheck (some 11) = Except.error 400 ∧
    createPriorityCheck (some (-3)) = Except.ok (-3) ∧
    updatePriorityCheck (some (-3)) = Except.ok (-3) ∧
    ¬((0 : Int) ≤ -3 ∧ (-3 : Int) ≤ 10) := by
  decide

/-- C5 amended: only a priority that fails integer parsing is normalized to 0;
a parsed priority greater than 10 is rejected with HTTP 400 by both handlers,
and any parsed priority at most 10 — including negative values — is accepted
and stored as submitted. -/
theorem c5_amended (raw : Option Int) :
    (atoiResult raw ≤ 10 →
      createPriorityCheck raw = Except.ok (atoiResult raw) ∧
      updatePriorityCheck raw = Except.ok (atoiResult raw)) ∧
    (10 < atoiResult raw →
      createPriorityCheck raw = Except.error 400 ∧
      updatePriorityCheck raw = Except.error 400) ∧
    (raw = none → createPriorityCheck raw = Except.ok 0) := by
  refine ⟨fun h => ?_, fun h => ?_, fun h => ?_⟩
  · constructor <;> simp [createPriorityCheck, updatePriorityCheck, not_lt.mpr h]
  · constructor <;> simp [createPriorityCheck, updatePriorityCheck, h]
  · simp [h, createPriorityCheck, atoiResult]

/-- C5 witness: a legal priority of 7 is accepted unchanged by the create
handler. -/
theorem c5_witness : createPriorityCheck (some 7) = Except.ok 7 :=
  ((c5_amended (some 7)).1 (by decide)).1

/-- Rebuilding a string from its character list is the identity. -/
theorem stringMk_toList (s : String) : String.mk s.toList = s := rfl

/-- C8 counterexample: an infobox carrying only the plural developer label
yields the whole trimmed cell text "Valve Corporation", and one carrying only
the plural publisher label yields the whole trimmed cell text "Valve Sierra";
neither equals the first whitespace-delimited token "Valve" that the claim
mandates for plural labels. -/
theorem c8_counterexample :
    extractDeveloper [⟨"Разработчики", "Valve Corporation"⟩] = "Valve Corporation" ∧
    extractPublisher [⟨"Издатели", "Valve Sierra"⟩] = "Valve Sierra" ∧
    firstSpaceToken "Valve Corporation" = "Valve" ∧
    firstSpaceToken "Valve Sierra" = "Valve" ∧
    ("Valve Corporation" : String) ≠ "Valve" ∧
    ("Valve Sierra" : String) ≠ "Valve" := by
  decide

/-- C8 amended: whether the infobox carries the singular or only the plural
developer/publisher label, the extracted value is the whole trimmed adjacent
cell text, never just its first token: the singular label lookup matches by
substring, so it also fires on the plural developer label (the first-token
branch is unreachable), and the plural publisher branch never splits. -/
theorem c8_amended (adj : String) :
    extractDeveloper [⟨"Разработчики", adj⟩] = goTrimSpace adj ∧
    extractPublisher [⟨"Издатели", adj⟩] = goTrimSpace adj ∧
    extractDeveloper [⟨"Разработчик", adj⟩] = goTrimSpace adj ∧
    extractPublisher [⟨"Издатель", adj⟩] = goTrimSpace adj := by
  have h1 : strContainsSub "Разработчики" "Разработчик" = true := by decide
  have h2 : strContainsSub "Издатели" "Издатель" = false := by decide
  have h3 : strContainsSub "Издатели" "Издатели" = true := by decide
  have h4 : strContainsSub "Разработчик" "Разработчик" = true := by decide
  have h5 : strContainsSub "Издатель" "Издатель" = true := by decide
  refine ⟨?_, ?_, ?_, ?_⟩ <;>
    simp [extractDeveloper, extractPublisher, findHeaderCells, nextText,
      List.filter, h1, h2, h3, h4, h5, stringMk_toList]

/-- C9: in every state reachable from a fresh batch of n items, at most
`maxWorkers` = 10 item pipelines hold a semaphore permit, i.e. are in flight,
regardless of the batch size. -/
theorem c9_semaphore_bound (n : Nat) (s : SemState) (h1 : 1 ≤ n) (h2 : n ≤ 100)
    (hr : SemReach n s) : s.inFlight ≤ maxWorkers := by
  induction hr with
  | init => simp [maxWorkers]
  | step s s' _ hs ih =>
      cases hs with
      | acquire hw hcap =>
          simp only [maxWorkers] at hcap ⊢
          omega
      | release hpos =>
          simp only [maxWorkers] at ih ⊢
          omega

/-- C9 witness: the initial state of a single-item batch holds the bound. -/
theorem c9_witness : (⟨1, 0, 0⟩ : SemState).inFlight ≤ maxWorkers :=
  c9_semaphore_bound 1 ⟨1, 0, 0⟩ (by decide) (by decide) SemReach.init

/-- Every pipeline outcome lands in exactly one of the two aggregation lists. -/
theorem collect_length (rs : List (Except String Game)) :
    (collectSuccesses rs).length + (collectErrors rs).length = rs.length := by
  induction rs with
  | nil => rfl
  | cons r rest ih =>
      cases r <;>
        simp only [collectSuccesses, collectErrors, List.filterMap_cons] at * <;>
        simp only [List.length_cons] <;> omega

/-- A well-sized batch passes the up-front checks. -/
theorem precheck_passes (games : List RequestGame) (h1 : 1 ≤ games.length)
    (h2 : games.length ≤ 100) : precheckBatch games = none := by
  unfold precheckBatch
  rw [if_neg (by omega), if_neg (by omega)]

/-- On a well-sized batch the orchestrator aggregates the per-item runs. -/
theorem createMulti_eq (games : List RequestGame) (envs : List ItemEnv)
    (h1 : 1 ≤ games.length) (h2 : games.length ≤ 100) :
    CreateMultiGamesDB games envs
      = (classifyStatus (collectSuccesses (runItems games envs))
          (collectErrors (runItems games envs)),
         collectSuccesses (runItems games envs),
         collectErrors (runItems games envs)) := by
  unfold CreateMultiGamesDB
  rw [precheck_passes games h1 h2]

/-- C1: for every batch that passes the size check (1 ≤ N ≤ 100) and runs to
completion, each submitted item contributes exactly one entry, so the success
and error lists together have exactly N entries. -/
theorem c1_batch_conservation (games : List RequestGame) (envs : List ItemEnv)
    (h1 : 1 ≤ games.length) (h2 : games.length ≤ 100)
    (hlen : envs.length = games.length) :
    (CreateMultiGamesDB games envs).2.1.length +
      (CreateMultiGamesDB games envs).2.2.length = games.length := by
  rw [createMulti_eq games envs h1 h2]
  have hc := collect_length (runItems games envs)
  have hrl : (runItems games envs).length = games.length := by
    unfold runItems
    rw [List.length_map, List.length_zip, hlen, min_self]
  simpa [hrl] using hc

/-- C1 witness: a one-item batch yields one success entry and no error. -/
theorem c1_witness :
    (CreateMultiGamesDB [⟨"Half-Life 2", "Wiki"⟩] [envBase]).2.1.length +
      (CreateMultiGamesDB [⟨"Half-Life 2", "Wiki"⟩] [envBase]).2.2.length = 1 :=
  c1_batch_conservation [⟨"Half-Life 2", "Wiki"⟩] [envBase]
    (by decide) (by decide) rfl

/-- The status derivation, characterised by emptiness of the two lists. -/
theorem classify_iff (succ : List Game) (errs : List String) :
    (classifyStatus succ errs = 201 ↔ errs = []) ∧
    (classifyStatus succ errs = 500 ↔ (succ = [] ∧ errs ≠ [])) ∧
    (classifyStatus succ errs = 207 ↔ (succ ≠ [] ∧ errs ≠ [])) := by
  rcases errs with _ | ⟨e, errs⟩ <;> rcases succ with _ | ⟨s, succ⟩ <;>
    simp [classifyStatus]

/-- C3: on every completed batch the overall status is 201 exactly when the
error list is empty, 500 exactly when there are errors and no successes, and
207 exactly when both lists are non-empty. -/
theorem c3_status_classification (games : List RequestGame) (envs : List ItemEnv)
    (h1 : 1 ≤ games.length) (h2 : games.length ≤ 100) :
    ((CreateMultiGamesDB games envs).1 = 201 ↔
      (CreateMultiGamesDB games envs).2.2 = []) ∧
    ((CreateMultiGamesDB games envs).1 = 500 ↔
      ((CreateMultiGamesDB games envs).2.1 = [] ∧
       (CreateMultiGamesDB games envs).2.2 ≠ [])) ∧
    ((CreateMultiGamesDB games envs).1 = 207 ↔
      ((CreateMultiGamesDB games envs).2.1 ≠ [] ∧
       (CreateMultiGamesDB games envs).2.2 ≠ [])) := by
  rw [createMulti_eq games envs h1 h2]
  exact classify_iff _ _

/-- C3 witness: the classification instance for a concrete one-item batch. -/
theorem c3_witness :
    ((CreateMultiGamesDB [⟨"Half-Life 2", "Wiki"⟩] [envBase]).1 = 201 ↔
      (CreateMultiGamesDB [⟨"Half-Life 2", "Wiki"⟩] [envBase]).2.2 = []) ∧
    ((CreateMultiGamesDB [⟨"Half-Life 2", "Wiki"⟩] [envBase]).1 = 500 ↔
      ((CreateMultiGamesDB [⟨"Half-Life 2", "Wiki"⟩] [envBase]).2.1 = [] ∧
       (CreateMultiGamesDB [⟨"Half-Life 2", "Wiki"⟩] [envBase]).2.2 ≠ [])) ∧
    ((CreateMultiGamesDB [⟨"Half-Life 2", "Wiki"⟩] [envBase]).1 = 207 ↔
      ((CreateMultiGamesDB [⟨"Half-Life 2", "Wiki"⟩] [envBase]).2.1 ≠ [] ∧
       (CreateMultiGamesDB [⟨"Half-Life 2", "Wiki"⟩] [envBase]).2.2 ≠ [])) :=
  c3_status_classification [⟨"Half-Life 2", "Wiki"⟩] [envBase]
    (by decide) (by decide)

/-- With the deadline not yet fired and no user identity in the context, the
item pipeline fails immediately with the unauthorized error and performs no
external effect. -/
theorem createSingleGame_unauth (env : ItemEnv) (name source : String)
    (hc : env.ctxDone = false) (hu : env.userID = none) :
    createSingleGame env name source = (Except.error ErrUnauthorized, []) := by
  unfold createSingleGame
  rw [hc, hu]
  rfl

/-- No success is collected from a list of failed outcomes. -/
theorem collectSuccesses_nil (rs : List (Except String Game))
    (h : ∀ r ∈ rs, ∃ e, r = Except.error e) : collectSuccesses rs = [] := by
  induction rs with
  | nil => rfl
  | cons r rest ih =>
      obtain ⟨e, he⟩ := h r (by simp)
      subst he
      simp only [collectSuccesses, List.filterMap_cons]
      exact ih (fun r hr => h r (by simp [hr]))

/-- C4 counterexample: an unauthenticated, well-shaped one-item request is not
rejected up front — the up-front checks pass, the item pipeline function runs
and reports a per-item unauthorized failure, and the completed batch answers
HTTP 500 with one error entry, not an orchestrator-level rejection. -/
theorem c4_counterexample :
    precheckBatch [⟨"Half-Life 2", "Wiki"⟩] = none ∧
    CreateMultiGamesDB [⟨"Half-Life 2", "Wiki"⟩] [envUnauth]
      = (500, ([] : List Game), [ErrUnauthorized]) ∧
    (createSingleGame envUnauth "Half-Life 2" "Wiki").2 = [] := by
  refine ⟨rfl, rfl, rfl⟩

/-- C4 amended: an unauthenticated caller is not rejected up front; instead
each item's pipeline starts and fails immediately with the unauthorized error
before any resolve, parse, image-fetch or persist effect (its effect trace is
empty), and the completed well-shaped batch reports status 500 with no
successes and one error per item. -/
theorem c4_amended (games : List RequestGame) (envs : List ItemEnv)
    (h1 : 1 ≤ games.length) (h2 : games.length ≤ 100)
    (hlen : envs.length = games.length)
    (hauth : ∀ e ∈ envs, e.ctxDone = false ∧ e.userID = none) :
    precheckBatch games = none ∧
    (CreateMultiGamesDB games envs).1 = 500 ∧
    (CreateMultiGamesDB games envs).2.1 = [] ∧
    (CreateMultiGamesDB games envs).2.2.length = games.length ∧
    (∀ p ∈ games.zip envs,
      (createSingleGame p.2 p.1.name p.1.source).2 = []) := by
  have hall : ∀ r ∈ runItems games envs, ∃ e, r = Except.error e := by
    intro r hr
    obtain ⟨p, hp, rfl⟩ := List.mem_map.mp hr
    obtain ⟨-, he⟩ := List.of_mem_zip hp
    obtain ⟨hc, hu⟩ := hauth p.2 he
    exact ⟨ErrUnauthorized, by rw [createSingleGame_unauth p.2 p.1.name p.1.source hc hu]⟩
  have hsucc : collectSuccesses (runItems games envs) = [] :=
    collectSuccesses_nil _ hall
  have hrl : (runItems games envs).length = games.length := by
    unfold runItems
    rw [List.length_map, List.length_zip, hlen, min_self]
  have herr : (collectErrors (runItems games envs)).length = games.length := by
    have hc := collect_length (runItems games envs)
    rw [hsucc] at hc
    simpa [hrl] using hc
  refine ⟨precheck_passes games h1 h2, ?_, ?_, ?_, ?_⟩
  · rw [createMulti_eq games envs h1 h2]
    simp only [classifyStatus, hsucc, herr]
    rw [if_pos (by omega), if_pos (by simp)]
  · rw [createMulti_eq games envs h1 h2]
    exact hsucc
  · rw [createMulti_eq games envs h1 h2]
    exact herr
  · intro p hp
    obtain ⟨-, he⟩ := List.of_mem_zip hp
    obtain ⟨hc, hu⟩ := hauth p.2 he
    rw [createSingleGame_unauth p.2 p.1.name p.1.source hc hu]

/-- C4 witness: the amended behaviour at a concrete unauthenticated batch. -/
theorem c4_witness :
    precheckBatch [⟨"Portal", "Steam"⟩] = none ∧
    (CreateMultiGamesDB [⟨"Portal", "Steam"⟩] [envUnauth]).1 = 500 ∧
    (CreateMultiGamesDB [⟨"Portal", "Steam"⟩] [envUnauth]).2.1 = [] ∧
    (CreateMultiGamesDB [⟨"Portal", "Steam"⟩] [envUnauth]).2.2.length = 1 ∧
    (∀ p ∈ ([⟨"Portal", "Steam"⟩] : List RequestGame).zip [envUnauth],
      (createSingleGame p.2 p.1.name p.1.source).2 = []) :=
  c4_amended [⟨"Portal", "Steam"⟩] [envUnauth] (by decide) (by decide) rfl
    (by intro e he; simp at he; subst he; exact ⟨rfl, rfl⟩)

/-- C6: when the resolved url is already present in the catalog (the dedup
query returns a nil error), the item fails right after resolution with the
duplicate-classified reason, and its trace holds only the resolve and the
dedup check — no parse, no image fetch, no catalog insert — for both the Wiki
and the Steam source. -/
theorem c6_duplicate_short_circuit (env : ItemEnv) (name url : String) (uid : Int)
    (hc : env.ctxDone = false) (hu : env.userID = some uid) (hup : 0 < uid)
    (hurl : url ≠ "") (hdup : env.dbQuery url = none) :
    (env.wikiResolve name = Except.ok url →
      createSingleGame env name "Wiki"
        = (Except.error ("game already exists: " ++ url),
           [Ev.resolveWiki name, Ev.dedupCheck url])) ∧
    (findGameSteam name (env.steamHttp name) = Except.ok url →
      createSingleGame env name "Steam"
        = (Except.error ("игра уже существует: " ++ url),
           [Ev.resolveSteam name, Ev.dedupCheck url])) := by
  have hg : GetGameByURL url (env.dbQuery url) = some "game already exists" := by
    rw [hdup]
    unfold GetGameByURL
    rw [if_neg hurl]
    rfl
  have hle : ¬uid ≤ 0 := not_le.mpr hup
  constructor
  · intro hres
    have hw : ProcessWiki env name
        = (Except.error ("game already exists: " ++ url),
           [Ev.resolveWiki name, Ev.dedupCheck url]) := by
      unfold ProcessWiki
      rw [hres]
      dsimp only
      rw [hg]
    simp [createSingleGame, hc, hu, hle, hw]
  · intro hres
    have hs : ProcessSteam env name
        = (Except.error ("игра уже существует: " ++ url),
           [Ev.resolveSteam name, Ev.dedupCheck url]) := by
      unfold ProcessSteam
      rw [hres]
      dsimp only
      rw [hg]
    simp [createSingleGame, hc, hu, hle, hs]

/-- C6 witness: a concrete Wiki item whose resolved url is already stored. -/
theorem c6_witness :
    createSingleGame envDup "Half-Life 2" "Wiki"
      = (Except.error ("game already exists: " ++ "https://w.example/hl2"),
         [Ev.resolveWiki "Half-Life 2", Ev.dedupCheck "https://w.example/hl2"]) :=
  (c6_duplicate_short_circuit envDup "Half-Life 2" "https://w.example/hl2" 1
    rfl rfl (by decide) (by decide) rfl).1 rfl

/-- C7: whenever Steam resolution fails — a transport error, a non-200
status, or no suggestion link — `ProcessSteam` silently continues with the
full `ProcessWiki` run for the same name, so the item's outcome is exactly
the Wiki outcome and it fails only if the Wiki strategy fails too. -/
theorem c7_steam_fallback (env : ItemEnv) (name : String) :
    (∀ e, findGameSteam name (env.steamHttp name) = Except.error e →
      (ProcessSteam env name).1 = (ProcessWiki env name).1 ∧
      (ProcessSteam env name).2
        = Ev.resolveSteam name :: (ProcessWiki env name).2) ∧
    (findGameSteam name SteamResp.netError).isOk = false ∧
    (∀ st hrefs, st ≠ 200 →
      (findGameSteam name (SteamResp.resp st hrefs)).isOk = false) ∧
    (∀ st, (findGameSteam name (SteamResp.resp st [])).isOk = false) := by
  refine ⟨?_, rfl, ?_, ?_⟩
  · intro e he
    unfold ProcessSteam
    rw [he]
    exact ⟨rfl, rfl⟩
  · intro st hrefs hst
    unfold findGameSteam
    dsimp only
    rw [if_pos hst]
    rfl
  · intro st
    by_cases h : st = 200
    · subst h
      rfl
    · unfold findGameSteam
      dsimp only
      rw [if_pos h]
      rfl

/-- C7 witness: with the Steam endpoint unreachable, the item's outcome is the
Wiki outcome. -/
theorem c7_witness :
    (ProcessSteam envBase "Half-Life 2").1 = (ProcessWiki envBase "Half-Life 2").1 ∧
    (ProcessSteam envBase "Half-Life 2").2
      = Ev.resolveSteam "Half-Life 2" :: (ProcessWiki envBase "Half-Life 2").2 :=
  (c7_steam_fallback envBase "Half-Life 2").1 "network error" rfl

/-- C2 counterexample: an item whose cover image is uploaded ("abc.jpg") and
whose game record is inserted, but whose user-game link insertion fails, is
reported as a failure without any image deletion — no `deleteImage` effect
appears in its trace, so the uploaded blob is orphaned. -/
theorem c2_counterexample :
    (downloadAndSaveImage envLinkFail pgHL2.image).1 = Except.ok "abc.jpg" ∧
    (createSingleGame envLinkFail "Half-Life 2" "Wiki").1.isOk = false ∧
    (createSingleGame envLinkFail "Half-Life 2" "Wiki").2
      = [Ev.resolveWiki "Half-Life 2", Ev.dedupCheck "https://w.example/hl2",
         Ev.parseWiki "https://w.example/hl2",
         Ev.fetchImage "https://img.example/hl2.jpg",
         Ev.dedupCheck "https://w.example/hl2",
         Ev.insertGame "https://w.example/hl2",
         Ev.insertUserGame 7] ∧
    Ev.deleteImage "abc.jpg" ∉ (createSingleGame envLinkFail "Half-Life 2" "Wiki").2 := by
  decide

/-- C2 amended: the compensating image deletion runs when the game-record
insertion (`service.Create`) fails after a successful upload — then the trace
ends with the `deleteImage` of that item's filename; a failure of the
user-game link insertion alone triggers no deletion (see the counterexample). -/
theorem c2_amended (env : ItemEnv) (name url fn : String) (uid : Int)
    (pg : ParsedGame)
    (hc : env.ctxDone = false) (hu : env.userID = some uid) (hup : 0 < uid)
    (hres : env.wikiResolve name = Except.ok url) (hurl : url ≠ "")
    (hnodup : env.dbQuery url = some DBErr.recordNotFound)
    (hparse : env.wikiParse url = Except.ok pg) (hpu : pg.url = url)
    (himg : pg.image ≠ "") (hfetch : env.imageFetch pg.image = Except.ok fn)
    (hfn : fn ≠ "") (hins : env.insertGameOk = false) :
    (createSingleGame env name "Wiki").1.isOk = false ∧
    (createSingleGame env name "Wiki").2
      = [Ev.resolveWiki name, Ev.dedupCheck url, Ev.parseWiki url,
         Ev.fetchImage pg.image, Ev.dedupCheck url, Ev.insertGame url,
         Ev.deleteImage fn] := by
  have hg : GetGameByURL url (env.dbQuery url) = none := by
    rw [hnodup]
    unfold GetGameByURL
    rw [if_neg hurl]
    rfl
  have hle : ¬uid ≤ 0 := not_le.mpr hup
  have hw : ProcessWiki env name
      = (Except.ok pg, [Ev.resolveWiki name, Ev.dedupCheck url, Ev.parseWiki url]) := by
    unfold ProcessWiki
    rw [hres]
    dsimp only
    rw [hg]
    dsimp only
    rw [hparse]
  have hdl : downloadAndSaveImage env pg.image = (Except.ok fn, [Ev.fetchImage pg.image]) := by
    unfold downloadAndSaveImage
    rw [if_neg himg, hfetch]
  have hg2 : GetGameByURL pg.url (env.dbQuery pg.url) = none := by
    rw [hpu]
    exact hg
  constructor <;>
    simp [createSingleGame, hc, hu, hle, hw, hdl, serviceCreate, hg2, hg, hins, hfn, hpu,
      Except.isOk, Except.toBool]

/-- C2 witness: the amended compensation at a concrete failing insert. -/
theorem c2_witness :
    (createSingleGame envInsertFail "Half-Life 2" "Wiki").1.isOk = false ∧
    (createSingleGame envInsertFail "Half-Life 2" "Wiki").2
      = [Ev.resolveWiki "Half-Life 2", Ev.dedupCheck "https://w.example/hl2",
         Ev.parseWiki "https://w.example/hl2",
         Ev.fetchImage pgHL2.image, Ev.dedupCheck "https://w.example/hl2",
         Ev.insertGame "https://w.example/hl2", Ev.deleteImage "abc.jpg"] :=
  c2_amended envInsertFail "Half-Life 2" "https://w.example/hl2" "abc.jpg" 1 pgHL2
    rfl rfl (by decide) rfl (by decide) rfl rfl rfl (by decide) rfl (by decide) rfl
